import Mathlib

/-!
Verification of the NFZ hospital-statistics scraper (`scraper.py`).

The development shallowly embeds the Python source: JSON values are an
inductive type, Python dictionaries are association lists in insertion
order, fallible Python expressions return `Except String`, and the
network transport is abstracted as a function from a page number to a
transport outcome.  Machine behaviour that the claims depend on
(dictionary semantics of `d.get`, `d[k]`, truthiness, `str.zfill`,
`int(...)` of a string, the `openpyxl` illegal-character regex) is
modelled explicitly.
-/

set_option autoImplicit false

/-- JSON values as returned by `response.json()`. -/
inductive Json where
  | null
  | bool (b : Bool)
  | num (n : Int)
  | str (s : String)
  | arr (elems : List Json)
  | obj (fields : List (String × Json))

/-- Python truthiness (`if x:`) restricted to JSON values:
`None`, `False`, `0`, `""`, `[]` and `{}` are falsy. -/
def truthy : Json → Bool
  | .null => false
  | .bool b => b
  | .num n => n != 0
  | .str s => s != ""
  | .arr elems => !elems.isEmpty
  | .obj fields => !fields.isEmpty

/-- Dictionary lookup on an association list: value of the first binding
of the key, mirroring a Python `dict` (whose keys are unique anyway). -/
def objGet (kvs : List (String × Json)) (k : String) : Option Json :=
  match kvs with
  | [] => none
  | kv :: rest => if kv.1 == k then some kv.2 else objGet rest k

/-- Dictionary assignment `d[k] = v`: replace the binding in place when
the key exists, else append the new binding (Python insertion order). -/
def objSet (kvs : List (String × Json)) (k : String) (v : Json) : List (String × Json) :=
  match kvs with
  | [] => [(k, v)]
  | kv :: rest => if kv.1 == k then (k, v) :: rest else kv :: objSet rest k v

/-- Python `d.get(k, default)`: raises `AttributeError` when the receiver
is not a dictionary. -/
def pyGetMeth (j : Json) (k : String) (dflt : Json) : Except String Json :=
  match j with
  | .obj kvs => .ok ((objGet kvs k).getD dflt)
  | _ => .error ("AttributeError")

/-- Python subscription `d[k]` with a string key: `KeyError` when the key
is missing, `TypeError` when the receiver is not a dictionary. -/
def pySubscr (j : Json) (k : String) : Except String Json :=
  match j with
  | .obj kvs =>
    match objGet kvs k with
    | some v => .ok v
    | none => .error ("KeyError")
  | _ => .error ("TypeError")

/-- Python iteration over a JSON value: lists yield their elements,
dictionaries their keys, strings their characters; the rest raise. -/
def pyIter : Json → Except String (List Json)
  | .arr elems => .ok elems
  | .obj kvs => .ok (kvs.map (fun kv => Json.str kv.1))
  | .str s => .ok (s.data.map (fun c => Json.str (String.mk [c])))
  | _ => .error ("TypeError")

/-- Python `x[-1]` on strings and lists. -/
def pyLastItem : Json → Except String Json
  | .str s =>
    match s.data.getLast? with
    | some c => .ok (.str (String.mk [c]))
    | none => .error ("IndexError")
  | .arr elems =>
    match elems.getLast? with
    | some x => .ok x
    | none => .error ("IndexError")
  | _ => .error ("TypeError")

/-- A single apostrophe, used by the Python `repr` of strings. -/
def squote : String := String.mk [Char.ofNat 39]

mutual

/-- Python `repr` of a JSON value (`str` falls back to this for
containers). -/
def pyRepr : Json → String
  | .null => "None"
  | .bool true => "True"
  | .bool false => "False"
  | .num n => toString n
  | .str s => squote ++ s ++ squote
  | .arr elems => "[" ++ pyReprSeq elems ++ "]"
  | .obj kvs => "\x7b" ++ pyReprKVs kvs ++ "\x7d"

/-- Comma-separated `repr`s of list elements. -/
def pyReprSeq : List Json → String
  | [] => ""
  | [x] => pyRepr x
  | x :: rest => pyRepr x ++ ", " ++ pyReprSeq rest

/-- Comma-separated `repr`s of dictionary entries. -/
def pyReprKVs : List (String × Json) → String
  | [] => ""
  | [kv] => squote ++ kv.1 ++ squote ++ ": " ++ pyRepr kv.2
  | kv :: rest => squote ++ kv.1 ++ squote ++ ": " ++ pyRepr kv.2 ++ ", " ++ pyReprKVs rest

end

/-- Python `str(x)` for JSON values. -/
def pyStr : Json → String
  | .str s => s
  | .null => "None"
  | .bool true => "True"
  | .bool false => "False"
  | .num n => toString n
  | .arr elems => pyRepr (.arr elems)
  | .obj kvs => pyRepr (.obj kvs)

/-- Python `s.zfill(width)`: left-pad with zeros to the requested total
width, keeping a leading sign in front of the padding. -/
def zfill (s : String) (width : Nat) : String :=
  if width ≤ s.length then s
  else
    match s.data with
    | c :: rest =>
      if c == Char.ofNat 43 || c == Char.ofNat 45 then
        String.mk [c] ++ String.mk (List.replicate (width - s.length) (Char.ofNat 48)) ++ String.mk rest
      else
        String.mk (List.replicate (width - s.length) (Char.ofNat 48)) ++ s
    | [] => String.mk (List.replicate width (Char.ofNat 48))

/-- Lookup in a static string-to-string table (`dict.get` without a
default). -/
def strMapGet (m : List (String × String)) (k : String) : Option String :=
  match m with
  | [] => none
  | kv :: rest => if kv.1 == k then some kv.2 else strMapGet rest k

/-- Decimal value of a digit character. -/
def digitVal (c : Char) : Option Nat :=
  if c.isDigit then some (c.toNat - 48) else none

/-- Value of a non-empty all-digit character list. -/
def digitsVal : List Char → Option Nat
  | [] => none
  | cs =>
    cs.foldl
      (fun acc c =>
        match acc, digitVal c with
        | some n, some d => some (n * 10 + d)
        | _, _ => none)
      (some 0)

/-- Python `int(s)` on a string of an optional sign followed by digits. -/
def pyParseIntStr (s : String) : Option Int :=
  match s.data with
  | c :: rest =>
    if c == Char.ofNat 45 then (digitsVal rest).map (fun n => -(n : Int))
    else if c == Char.ofNat 43 then (digitsVal rest).map (fun n => (n : Int))
    else (digitsVal s.data).map (fun n => (n : Int))
  | [] => none

/-- Python `int(x)` on a JSON value: numbers and booleans convert,
strings parse (`ValueError` on failure), the rest raise `TypeError`. -/
def pyInt : Json → Except String Int
  | .num n => .ok n
  | .bool true => .ok 1
  | .bool false => .ok 0
  | .str s =>
    match pyParseIntStr s with
    | some n => .ok n
    | none => .error ("ValueError")
  | _ => .error ("TypeError")

/-- `voivodeships_map` from the source: NFZ branch code to region name. -/
def voivodeships_map : List (String × String) :=
  [("01", "Dolnośląski"), ("02", "Kujawsko-Pomorski"), ("03", "Lubelski"),
   ("04", "Lubuski"), ("05", "Łódzki"), ("06", "Małopolski"), ("07", "Mazowiecki"),
   ("08", "Opolski"), ("09", "Podkarpacki"), ("10", "Podlaski"), ("11", "Pomorski"),
   ("12", "Śląski"), ("13", "Świętokrzyski"), ("14", "Warmińsko-Mazurski"),
   ("15", "Wielkopolski"), ("16", "Zachodniopomorski")]

/-- `hospital_type_map` from the source. -/
def hospital_type_map : List (String × String) :=
  [("1", "Gminny, powiatowy, miejski"),
   ("2", "Niepubliczny"),
   ("3", "Kliniczny"),
   ("4", "Wojewódzki"),
   ("5", "Inny")]

/-- `endpoint_map` from the source: table type to API endpoint path. -/
def endpoint_map : List (String × String) :=
  [("general-data", "basic-data"),
   ("hospitalization-by-gender", "hospitalizations-by-patient-gender"),
   ("hospitalization-by-admission", "hospitalizations-by-admission-type"),
   ("hospitalization-by-admission-nfz", "hospitalizations-by-admission-type-nfz-categorized"),
   ("hospitalization-by-discharge", "hospitalizations-by-discharge-type"),
   ("hospitalization-by-age", "hospitalizations-by-patient-age"),
   ("icd-9-procedures", "icd9-procedures"),
   ("icd-10-diseases", "icd10-diseases"),
   ("product-categories", "hospitalizations-by-product-category"),
   ("hospitalization-by-service", "hospitalizations-by-healthcare-service")]

/-- `param_modes` from the source: extra query parameters per mode. -/
def param_modes : List (String × Json) :=
  [("default", Json.obj []),
   ("branch", Json.obj [("branch", Json.str ("true"))]),
   ("hospitalType", Json.obj [("hospitalType", Json.str ("true"))])]

/-- Outcome of one HTTP GET through the retrying session, as observed by
`get_json`: a parsed JSON body on 2xx, the final HTTP error status after
the retry budget (429/500/502/503/504) is exhausted, or a transport
failure. -/
inductive FetchOutcome where
  | success (body : Json)
  | httpError (status : Nat)
  | timeout
  | connectionError

/-- `get_json` from the source: `raise_for_status` failures with status
400 are swallowed to `None`, every other `HTTPError` is re-raised, and
the remaining `RequestException`s (timeout, connection error) give
`None`. -/
def get_json : FetchOutcome → Except String (Option Json)
  | .success body => .ok (some body)
  | .httpError status => if status == 400 then .ok none else .error ("HTTPError")
  | .timeout => .ok none
  | .connectionError => .ok none

/-- What `get_all_pages` does after yielding a page: computing
`data.get("links", {}).get("next")` either raises (non-dictionary
receiver), finds no truthy next link (loop breaks), or continues to the
next page number. -/
inductive PageStep where
  | raises (e : String)
  | stop
  | cont
  deriving DecidableEq

/-- The per-page continuation decision of `get_all_pages` (source lines
60-63). -/
def pageStep (data : Json) : PageStep :=
  match pyGetMeth data ("links") (Json.obj []) with
  | .error e => .raises e
  | .ok links =>
    match pyGetMeth links ("next") Json.null with
    | .error e => .raises e
    | .ok nextLink => if truthy nextLink then .cont else .stop

/-- One run of the `get_all_pages` generator: the pages it yielded, the
page numbers it requested, and the exception it ended with, if any. -/
structure GenRun where
  yielded : List Json
  requested : List Nat
  failed : Option String

/-- `get_all_pages` from the source, starting at the given page number.
`transport` is the outcome of requesting a given page number with the
fixed base parameters; `fuel` bounds the number of iterations modelled
(every theorem supplies enough fuel for its run to finish). -/
def getAllPagesAux (transport : Nat → FetchOutcome) : Nat → Nat → GenRun
  | _, 0 => ⟨[], [], none⟩
  | page, fuel + 1 =>
    match get_json (transport page) with
    | .error e => ⟨[], [page], some e⟩
    | .ok none => ⟨[], [page], none⟩
    | .ok (some data) =>
      if truthy data then
        match pageStep data with
        | .raises e => ⟨[data], [page], some e⟩
        | .stop => ⟨[data], [page], none⟩
        | .cont =>
          let rest := getAllPagesAux transport (page + 1) fuel
          ⟨data :: rest.yielded, page :: rest.requested, rest.failed⟩
      else ⟨[], [page], none⟩

/-- `get_all_pages(url, base_params)`: pagination starts at page 1. -/
def getAllPages (transport : Nat → FetchOutcome) (fuel : Nat) : GenRun :=
  getAllPagesAux transport 1 fuel

/-- The body of the row loop of `download_table` (source lines 154-162):
mode-dependent enrichment followed by the four stamps, mutating the row
dictionary in place.  Non-dictionary rows raise. -/
def processRow (mode_name jgp_code : String) (year : Int) (table_id name : Json)
    (row : Json) : Except String Json :=
  match row with
  | .obj kvs0 =>
    let kvs1 :=
      if mode_name == "branch" then
        match objGet kvs0 ("branch") with
        | some b =>
          objSet kvs0 ("branch_name")
            (match strMapGet voivodeships_map (zfill (pyStr b) 2) with
             | some s => Json.str s
             | none => b)
        | none => kvs0
      else kvs0
    let kvs2 :=
      if mode_name == "hospitalType" then
        match objGet kvs1 ("hospitalType") with
        | some h =>
          objSet kvs1 ("hospitalType_name")
            (match strMapGet hospital_type_map (pyStr h) with
             | some s => Json.str s
             | none => h)
        | none => kvs1
      else kvs1
    let kvs3 := objSet kvs2 ("year") (Json.num year)
    let kvs4 := objSet kvs3 ("jgp_code") (Json.str jgp_code)
    let kvs5 := objSet kvs4 ("name") name
    let kvs6 := objSet kvs5 ("table_id") table_id
    .ok (Json.obj kvs6)
  | _ => .error ("TypeError")

/-- The display name a page contributes to its rows:
`page["data"].get("attributes", {}).get("name")`. -/
def pageName (page : Json) : Except String Json :=
  match pySubscr page ("data") with
  | .error e => .error e
  | .ok dataVal =>
    match pyGetMeth dataVal ("attributes") (Json.obj []) with
    | .error e => .error e
    | .ok attributes => pyGetMeth attributes ("name") Json.null

/-- The body of the page loop of `download_table` (source lines
149-162): extract `page["data"].get("attributes", {})`, iterate its
`data` entry (defaulting to the empty list), and append each processed
row to the accumulator. -/
def processPage (mode_name jgp_code : String) (year : Int) (table_id : Json)
    (rows : List Json) (page : Json) : Except String (List Json) :=
  if truthy page then
    match pySubscr page ("data") with
    | .error e => .error e
    | .ok dataVal =>
      match pyGetMeth dataVal ("attributes") (Json.obj []) with
      | .error e => .error e
      | .ok attributes =>
        match pyGetMeth attributes ("data") (Json.arr []) with
        | .error e => .error e
        | .ok data_rows =>
          match pyGetMeth attributes ("name") Json.null with
          | .error e => .error e
          | .ok name =>
            match pyIter data_rows with
            | .error e => .error e
            | .ok elems =>
              elems.foldlM
                (fun acc row =>
                  (processRow mode_name jgp_code year table_id name row).map
                    (fun r => acc ++ [r]))
                rows
  else .ok rows

/-- `download_table` from the source: paginate the table endpoint and
accumulate processed rows; an exception from a page body or from the
generator itself propagates (losing the rows accumulated so far). -/
def download_table (transport : Nat → FetchOutcome) (mode_name jgp_code : String)
    (year : Int) (table_id : Json) (fuel : Nat) : Except String (List Json) :=
  let gen := getAllPages transport fuel
  match gen.yielded.foldlM (processPage mode_name jgp_code year table_id) [] with
  | .error e => .error e
  | .ok rows =>
    match gen.failed with
    | some e => .error e
    | none => .ok rows

/-- `get_sections` from the source: fetch the first page without
parameters, compute `int(first["links"]["last"][-1])` as the last page
number, then extend the section list with `data["data"]` for every
truthy fetched page in `range(1, last_page + 1)`. -/
def get_sections (first_req : FetchOutcome) (page_req : Nat → FetchOutcome) :
    Except String (List Json) :=
  match get_json first_req with
  | .error e => .error e
  | .ok none => .ok []
  | .ok (some first) =>
    if truthy first then
      match pySubscr first ("links") with
      | .error e => .error e
      | .ok links =>
        match pySubscr links ("last") with
        | .error e => .error e
        | .ok lastLink =>
          match pyLastItem lastLink with
          | .error e => .error e
          | .ok lastItem =>
            match pyInt lastItem with
            | .error e => .error e
            | .ok last_page =>
              (List.range' 1 last_page.toNat).foldlM
                (fun sections p =>
                  match get_json (page_req p) with
                  | .error e => .error e
                  | .ok none => .ok sections
                  | .ok (some data) =>
                    if truthy data then
                      match pySubscr data ("data") with
                      | .error e => .error e
                      | .ok d =>
                        match pyIter d with
                        | .error e => .error e
                        | .ok elems => .ok (sections ++ elems)
                    else .ok sections)
                []
    else .ok []

/-- Bucket key construction from the source main loop (lines 186-189 and
225): the mode suffix is omitted for the default mode. -/
def bucketKey (table_name mode_name : String) : String :=
  if mode_name != "default" then table_name ++ "_" ++ mode_name else table_name

/-- The per-year bucket dictionary as initialized at the start of each
year's iteration (source lines 185-189), before any per-year network
call: one empty bucket per endpoint/mode pair. -/
def initTableData : List (String × List Json) :=
  (endpoint_map.map Prod.fst).flatMap
    (fun table_name =>
      (param_modes.map Prod.fst).map
        (fun mode_name => (bucketKey table_name mode_name, ([] : List Json))))

/-- The character class of the `ILLEGAL_CHARACTERS_RE` regex in
`clean_for_excel` (octal ranges 000-010, 013-014, 016-037). -/
def isIllegalExcelChar (c : Char) : Bool :=
  c.toNat ≤ 8 || (11 ≤ c.toNat && c.toNat ≤ 12) || (14 ≤ c.toNat && c.toNat ≤ 31)

/-- `clean_for_excel` from the source: strings lose the illegal
characters and are truncated to 32767 characters; everything else
passes through unchanged. -/
def clean_for_excel : Json → Json
  | .str s => .str (String.mk ((s.data.filter (fun c => !(isIllegalExcelChar c))).take 32767))
  | v => v

/-- Page `i` of the given transport fetches successfully, parses to a
truthy page, and carries a truthy `links.next`, so pagination
continues past it. -/
def contAt (transport : Nat → FetchOutcome) (d : Nat → Json) (i : Nat) : Prop :=
  get_json (transport i) = .ok (some (d i)) ∧ truthy (d i) = true ∧
    pageStep (d i) = PageStep.cont

/-- First sections page of the C3 scenario: its `links.last` URL
designates page 12. -/
def c3First : Json :=
  Json.obj [("links", Json.obj [("last",
    Json.str ("https://api.nfz.gov.pl/app-stat-api-jgp/sections?page=12"))]),
    ("data", Json.arr [Json.num 0])]

/-- Per-page transport of the C3 scenario: every page p is available and
holds the single section entry p. -/
def c3PageReq (p : Nat) : FetchOutcome :=
  FetchOutcome.success (Json.obj [("data", Json.arr [Json.num (p : Int)])])

/-- One-page transport whose single table row carries branch code "7". -/
def c2Transport : Nat → FetchOutcome := fun _ =>
  FetchOutcome.success (Json.obj [("data", Json.obj [("attributes", Json.obj
    [("name", Json.str ("tab")),
     ("data", Json.arr [Json.obj [("branch", Json.str ("7"))]])])])])

/-- Two-page transport: page 1 is well-shaped with one row and a next
link, page 2 is truthy but has no `data` key at all. -/
def c4Transport : Nat → FetchOutcome := fun n =>
  if n == 1 then
    FetchOutcome.success (Json.obj
      [("data", Json.obj [("attributes", Json.obj
         [("name", Json.str ("tab")),
          ("data", Json.arr [Json.obj [("v", Json.num 1)]])])]),
       ("links", Json.obj [("next", Json.str ("u"))])])
  else FetchOutcome.success (Json.obj [("nodata", Json.num 1)])

/-- A truthy page that carries a truthy `links.next`. -/
def c6PageCont : Json :=
  Json.obj [("links", Json.obj [("next", Json.str ("u"))]), ("data", Json.arr [])]

/-- A truthy page with no `links` entry (hence no next link). -/
def c6PageStop : Json :=
  Json.obj [("data", Json.arr [])]

/-- Page contents of the C6 scenario: page 1 continues, page 2 stops. -/
def c6Pages (n : Nat) : Json :=
  if n == 1 then c6PageCont else c6PageStop

/-- Transport of the C6 scenario: pages 1 and 2 fetch successfully,
later pages are never consulted. -/
def c6Transport (n : Nat) : FetchOutcome :=
  if n ≤ 2 then FetchOutcome.success (c6Pages n) else FetchOutcome.timeout

/-- Transport of the C6 absent-fetch scenario: page 1 continues, the
fetch of page 2 times out. -/
def c6TransportAbs (n : Nat) : FetchOutcome :=
  if n == 1 then FetchOutcome.success c6PageCont else FetchOutcome.timeout

/-- Transport of the C10 scenario: page 1 continues, the fetch of
page 2 succeeds but parses to the falsy empty dictionary. -/
def c10Transport (n : Nat) : FetchOutcome :=
  if n == 1 then FetchOutcome.success c6PageCont
  else FetchOutcome.success (Json.obj [])

/-- Transport of the C10 comparison scenario: page 1 continues, the
fetch of page 2 times out. -/
def c10TransportAbs (n : Nat) : FetchOutcome :=
  if n == 1 then FetchOutcome.success c6PageCont else FetchOutcome.timeout

/-- One-page transport with a single plain row, used to exercise the
row-stamping theorem end to end. -/
def c7Transport : Nat → FetchOutcome := fun _ =>
  FetchOutcome.success (Json.obj [("data", Json.obj [("attributes", Json.obj
    [("name", Json.str ("t")),
     ("data", Json.arr [Json.obj [("a", Json.num 1)]])])])])

/-- The single stamped row produced by the `c7Transport` download in
default mode. -/
def c7Row : Json :=
  Json.obj [("a", Json.num 1), ("year", Json.num 2020), ("jgp_code", Json.str ("c")),
    ("name", Json.str ("t")), ("table_id", Json.num 5)]

/-- Looking up the key just set returns the new value. -/
theorem objGet_objSet_self (kvs : List (String × Json)) (k : String) (v : Json) :
    objGet (objSet kvs k v) k = some v := by
  induction kvs with
  | nil => simp [objSet, objGet]
  | cons kv rest ih =>
    cases hkv : kv.1 == k with
    | true => simp [objSet, hkv, objGet]
    | false => simp [objSet, hkv, objGet, ih]

/-- Setting one key leaves the lookup of any other key unchanged. -/
theorem objGet_objSet_ne (kvs : List (String × Json)) (k k2 : String) (v : Json)
    (h : (k == k2) = false) : objGet (objSet kvs k v) k2 = objGet kvs k2 := by
  induction kvs with
  | nil => simp [objSet, objGet, h]
  | cons kv rest ih =>
    cases hkv : kv.1 == k with
    | true =>
      have hk : kv.1 = k := eq_of_beq hkv
      simp [objSet, hkv, objGet, hk, h]
    | false => simp [objSet, hkv, objGet, ih]

/-- Looking up a key untouched by the four stamping assignments of
`processRow` is unchanged by them. -/
theorem objGet_stamps (kvs : List (String × Json)) (jgp : String) (year : Int)
    (tid name : Json) (k : String)
    (h1 : (("year" : String) == k) = false) (h2 : (("jgp_code" : String) == k) = false)
    (h3 : (("name" : String) == k) = false) (h4 : (("table_id" : String) == k) = false) :
    objGet (objSet (objSet (objSet (objSet kvs ("year") (Json.num year)) ("jgp_code")
      (Json.str jgp)) ("name") name) ("table_id") tid) k = objGet kvs k := by
  rw [objGet_objSet_ne _ _ _ _ h4, objGet_objSet_ne _ _ _ _ h3,
    objGet_objSet_ne _ _ _ _ h2, objGet_objSet_ne _ _ _ _ h1]

/-- C5: for every fetch whose HTTP response is a client error with
status 400, `get_json` returns absent (`None`) and does not raise. -/
theorem get_json_400_absent : get_json (FetchOutcome.httpError 400) = .ok none := rfl

/-- C1 counterexample: a fetch failing with HTTP status 500 (after the
retry budget is exhausted) makes `get_json` re-raise the `HTTPError`
instead of returning `None`, contradicting the claim that every
non-400 transport failure returns absent. -/
theorem get_json_http500_raises :
    get_json (FetchOutcome.httpError 500) = .error ("HTTPError") ∧
    (Except.error ("HTTPError") : Except String (Option Json)) ≠ .ok none := by
  exact ⟨rfl, fun h => Except.noConfusion h⟩

/-- C1 (amended): a timeout or a connection error makes `get_json`
return absent (`None`) without raising, but an HTTP error status other
than 400 re-raises the `HTTPError` after the retry budget, so such a
call raises rather than returning absent. -/
theorem get_json_failure_behavior :
    get_json FetchOutcome.timeout = .ok none ∧
    get_json FetchOutcome.connectionError = .ok none ∧
    ∀ status : Nat, status ≠ 400 →
      get_json (FetchOutcome.httpError status) = .error ("HTTPError") := by
  refine ⟨rfl, rfl, fun status hs => ?_⟩
  have hb : (status == 400) = false := by simp [hs]
  simp [get_json, hb]

/-- Witness for C1: status 500 differs from 400 and indeed raises. -/
theorem get_json_failure_behavior_witness :
    (500 : Nat) ≠ 400 ∧
    get_json (FetchOutcome.httpError 500) = .error ("HTTPError") :=
  ⟨by decide, get_json_failure_behavior.2.2 500 (by decide)⟩

/-- C8: `clean_for_excel` on a string removes exactly the characters in
the ranges 0x00-0x08, 0x0B-0x0C, 0x0E-0x1F, truncates the result to at
most 32767 characters (in particular no 0x0B byte survives), and
returns every non-string value unchanged. -/
theorem clean_for_excel_spec :
    (∀ s : String, ∃ r : String, clean_for_excel (Json.str s) = Json.str r ∧
      r.data = (s.data.filter (fun c => !(c.toNat ≤ 0x08 ||
        (0x0B ≤ c.toNat && c.toNat ≤ 0x0C) ||
        (0x0E ≤ c.toNat && c.toNat ≤ 0x1F)))).take 32767 ∧
      r.data.length ≤ 32767 ∧
      ∀ c ∈ r.data, c.toNat ≠ 0x0B) ∧
    (∀ v : Json, (∀ s : String, v ≠ Json.str s) → clean_for_excel v = v) := by
  constructor
  · intro s
    refine ⟨_, rfl, rfl, ?_, ?_⟩
    · rw [List.length_take]
      omega
    · intro c hc hbad
      have hf := List.take_subset _ _ hc
      have hp := (List.mem_filter.mp hf).2
      simp [isIllegalExcelChar, hbad] at hp
  · intro v hv
    cases v with
    | str s => exact absurd rfl (hv s)
    | null => rfl
    | bool b => rfl
    | num n => rfl
    | arr elems => rfl
    | obj kvs => rfl

/-- Witness for C8: a concrete string containing 0x0B, and a non-string
value passing through unchanged. -/
theorem clean_for_excel_spec_witness :
    clean_for_excel (Json.num 5) = Json.num 5 :=
  clean_for_excel_spec.2 (Json.num 5) (fun _ h => Json.noConfusion h)

/-- C9: the bucket dictionary initialized at the start of each year's
iteration has exactly the keys of the cartesian product of the
`endpoint_map` keys and the `param_modes` keys, formed by `bucketKey`
(default-mode suffix omitted), with no collisions — independent of any
network data, since `initTableData` is a constant. -/
theorem bucket_keys_product :
    (∀ k : String, k ∈ initTableData.map Prod.fst ↔
      ∃ t ∈ endpoint_map.map Prod.fst, ∃ m ∈ param_modes.map Prod.fst,
        k = bucketKey t m) ∧
    (initTableData.map Prod.fst).Nodup := by
  constructor
  · intro k
    have hkeys : initTableData.map Prod.fst =
        (endpoint_map.map Prod.fst).flatMap
          (fun t => (param_modes.map Prod.fst).map (fun m => bucketKey t m)) := rfl
    rw [hkeys]
    simp only [List.mem_flatMap, List.mem_map]
    constructor
    · rintro ⟨t, ht, m, hm, rfl⟩
      exact ⟨t, ht, m, hm, rfl⟩
    · rintro ⟨t, ht, m, hm, rfl⟩
      exact ⟨t, ht, m, hm, rfl⟩
  · decide

/-- Witness for C9: the default-mode bucket of the general-data table is
one of the initialized keys. -/
theorem bucket_keys_product_witness :
    ("general-data" : String) ∈ initTableData.map Prod.fst :=
  (bucket_keys_product.1 ("general-data")).mpr
    ⟨"general-data", by decide, "default", by decide, rfl⟩

/-- C3 (bug evidence): with a first page whose `last` link designates
page 12 and every page available, `get_sections` computes
`int(last_link[-1]) = 2` from the final character of the URL and
gathers the data of pages 1 and 2 only — 2 pages instead of the 12 the
last link designates. -/
theorem get_sections_last_digit_bug :
    get_sections (FetchOutcome.success c3First) c3PageReq =
      .ok [Json.num 1, Json.num 2] ∧
    ([Json.num 1, Json.num 2] : List Json).length ≠ (List.range' 1 12).length := by
  exact ⟨rfl, by decide⟩

/-- C2 counterexample: a branch-mode download of a row with `branch`
"7" stamps `branch_name` "Mazowiecki", not "Pomorski" as the claim
states. -/
theorem branch7_not_pomorski :
    download_table c2Transport ("branch") ("X") 2020 (Json.num 5) 3 =
      .ok [Json.obj [("branch", Json.str ("7")),
        ("branch_name", Json.str ("Mazowiecki")),
        ("year", Json.num 2020), ("jgp_code", Json.str ("X")),
        ("name", Json.str ("tab")), ("table_id", Json.num 5)]] ∧
    Json.str ("Mazowiecki") ≠ Json.str ("Pomorski") := by
  refine ⟨rfl, fun h => ?_⟩
  injection h with h2
  exact absurd h2 (by decide)

/-- C2 (amended): every row processed by `download_table` in mode
"branch" whose source `branch` field is the string "7" gets
`branch_name` "Mazowiecki": the code is zero-padded to "07", and "07"
maps to "Mazowiecki" in `voivodeships_map` ("Pomorski" is code "11"). -/
theorem branch7_mazowiecki (jgp : String) (year : Int) (tid name : Json)
    (kvs : List (String × Json))
    (h : objGet kvs ("branch") = some (Json.str ("7"))) :
    ∃ okvs, processRow ("branch") jgp year tid name (Json.obj kvs) =
        .ok (Json.obj okvs) ∧
      objGet okvs ("branch_name") = some (Json.str ("Mazowiecki")) := by
  have hb1 : (("branch" : String) == "branch") = true := by decide
  have hb2 : (("branch" : String) == "hospitalType") = false := by decide
  simp only [processRow, h, hb1, hb2, eq_self_iff_true, if_true,
    Bool.false_eq_true, if_false]
  refine ⟨_, rfl, ?_⟩
  rw [objGet_objSet_ne _ _ _ _ (by decide), objGet_objSet_ne _ _ _ _ (by decide),
    objGet_objSet_ne _ _ _ _ (by decide), objGet_objSet_ne _ _ _ _ (by decide)]
  rw [objGet_objSet_self]
  rfl

/-- Witness for C2 (amended): the singleton row with branch "7". -/
theorem branch7_mazowiecki_witness :
    objGet [(("branch" : String), Json.str ("7"))] ("branch") =
      some (Json.str ("7")) ∧
    ∃ okvs, processRow ("branch") ("c") 0 Json.null Json.null
        (Json.obj [("branch", Json.str ("7"))]) = .ok (Json.obj okvs) ∧
      objGet okvs ("branch_name") = some (Json.str ("Mazowiecki")) :=
  ⟨rfl, branch7_mazowiecki ("c") 0 Json.null Json.null _ rfl⟩

/-- C4 counterexample: a truthy page with no `data` key raises
`KeyError` inside `download_table`, so the call returns no rows at all
— the row already accumulated from the earlier page is lost rather
than returned. -/
theorem missing_data_key_raises :
    download_table c4Transport ("default") ("X") 2020 (Json.num 5) 3 =
      .error ("KeyError") ∧
    ∀ rows : List Json,
      download_table c4Transport ("default") ("X") 2020 (Json.num 5) 3 ≠
        .ok rows := by
  have h1 : download_table c4Transport ("default") ("X") 2020 (Json.num 5) 3 =
      .error ("KeyError") := rfl
  refine ⟨h1, fun rows h => ?_⟩
  rw [h1] at h
  exact Except.noConfusion h

/-- C4 (amended): a page whose `data` member is a dictionary whose
`attributes` entry (defaulting to the empty dictionary) is a
dictionary without a `data` entry contributes zero rows and does not
raise, and the rows accumulated from earlier pages are passed through
untouched; a page with no `data` key at all, or with a non-dictionary
`data` value, instead raises out of `download_table` (the main loop
catches the exception and skips the whole table/mode combination). -/
theorem page_without_row_data_skipped (mode jgp : String) (year : Int)
    (tid : Json) (rows : List Json) (kvs akvs : List (String × Json))
    (hattr : pyGetMeth (Json.obj kvs) ("attributes") (Json.obj []) =
      .ok (Json.obj akvs))
    (hnod : objGet akvs ("data") = none) :
    processPage mode jgp year tid rows (Json.obj [("data", Json.obj kvs)]) =
      .ok rows := by
  have hattr2 : (objGet kvs ("attributes")).getD (Json.obj []) = Json.obj akvs := by
    simpa [pyGetMeth] using hattr
  simp [processPage, truthy, pySubscr, objGet, pyGetMeth, hattr2, hnod, pyIter,
    List.foldlM_nil]
  rfl

/-- Witness for C4 (amended): a page whose attributes hold only a name. -/
theorem page_without_row_data_skipped_witness :
    pyGetMeth (Json.obj [("attributes", Json.obj [("name", Json.str ("t"))])])
        ("attributes") (Json.obj []) =
      .ok (Json.obj [("name", Json.str ("t"))]) ∧
    objGet [(("name" : String), Json.str ("t"))] ("data") = none ∧
    processPage ("default") ("c") 0 Json.null [Json.num 7]
        (Json.obj [("data",
          Json.obj [("attributes", Json.obj [("name", Json.str ("t"))])])]) =
      .ok [Json.num 7] :=
  ⟨rfl, rfl, page_without_row_data_skipped ("default") ("c") 0 Json.null
    [Json.num 7] [("attributes", Json.obj [("name", Json.str ("t"))])]
    [("name", Json.str ("t"))] rfl rfl⟩

/-- Running `get_all_pages` through a block of consecutive continuing
pages prepends those pages, in page order, to whatever the rest of the
run produces. -/
theorem getAllPagesAux_cont_run (transport : Nat → FetchOutcome) (d : Nat → Json) :
    ∀ (n start fuel : Nat),
      (∀ i, start ≤ i → i < start + n → contAt transport d i) →
      getAllPagesAux transport start (n + fuel) =
        ⟨(List.range' start n).map d ++
            (getAllPagesAux transport (start + n) fuel).yielded,
         List.range' start n ++ (getAllPagesAux transport (start + n) fuel).requested,
         (getAllPagesAux transport (start + n) fuel).failed⟩ := by
  intro n
  induction n with
  | zero =>
    intro start fuel hcond
    simp
  | succ n ih =>
    intro start fuel hcond
    obtain ⟨hok, htr, hcont⟩ := hcond start (le_refl _) (by omega)
    have hfuel : n + 1 + fuel = (n + fuel) + 1 := by omega
    rw [hfuel]
    have hshift : ∀ i, start + 1 ≤ i → i < start + 1 + n → contAt transport d i := by
      intro i h1 h2
      exact hcond i (by omega) (by omega)
    simp only [getAllPagesAux, hok, htr, hcont, eq_self_iff_true, if_true]
    rw [ih (start + 1) fuel hshift]
    have harr : start + 1 + n = start + (n + 1) := by omega
    rw [harr, List.range'_succ]
    simp

/-- A successfully fetched truthy page without a truthy next link ends
the run, being yielded as its last page. -/
theorem getAllPagesAux_stop_step (transport : Nat → FetchOutcome) (d : Json)
    (p fuel : Nat) (hok : get_json (transport p) = .ok (some d))
    (htr : truthy d = true) (hstop : pageStep d = PageStep.stop) :
    getAllPagesAux transport p (fuel + 1) = ⟨[d], [p], none⟩ := by
  simp [getAllPagesAux, hok, htr, hstop]

/-- An absent fetch ends the run without yielding anything. -/
theorem getAllPagesAux_absent_step (transport : Nat → FetchOutcome)
    (p fuel : Nat) (hok : get_json (transport p) = .ok none) :
    getAllPagesAux transport p (fuel + 1) = ⟨[], [p], none⟩ := by
  simp [getAllPagesAux, hok]

/-- C6: `get_all_pages` starts at page 1 and advances by 1: when pages
1..N-1 continue and the fetched page N lacks a truthy `links.next`,
the paginator requests exactly pages 1,...,N in ascending order,
yields exactly those N fetched pages in that order (so the sequence
length equals the number of pages fetched), and terminates cleanly
after yielding page N; when instead the fetch of page M returns absent
after M-1 continuing pages, it requests pages 1..M, yields the first
M-1, and terminates, so the sequence is finite in both cases. -/
theorem get_all_pages_ascending_stop (transport : Nat → FetchOutcome)
    (d : Nat → Json) :
    (∀ N fuel : Nat, 1 ≤ N → N ≤ fuel →
      (∀ i, 1 ≤ i → i < N → contAt transport d i) →
      get_json (transport N) = .ok (some (d N)) → truthy (d N) = true →
      pageStep (d N) = PageStep.stop →
      getAllPages transport fuel =
        ⟨(List.range' 1 N).map d, List.range' 1 N, none⟩) ∧
    (∀ M fuel : Nat, 1 ≤ M → M ≤ fuel →
      (∀ i, 1 ≤ i → i < M → contAt transport d i) →
      get_json (transport M) = .ok none →
      getAllPages transport fuel =
        ⟨(List.range' 1 (M - 1)).map d, List.range' 1 M, none⟩) := by
  constructor
  · intro N fuel hN hfuel hcont hok htr hstop
    obtain ⟨n, rfl⟩ : ∃ n, N = n + 1 := ⟨N - 1, by omega⟩
    obtain ⟨k, rfl⟩ : ∃ k, fuel = n + (k + 1) := ⟨fuel - n - 1, by omega⟩
    unfold getAllPages
    have hc : ∀ i, 1 ≤ i → i < 1 + n → contAt transport d i := by
      intro i h1 h2
      exact hcont i h1 (by omega)
    rw [getAllPagesAux_cont_run transport d n 1 (k + 1) hc]
    have hcm : (1 : Nat) + n = n + 1 := Nat.add_comm 1 n
    rw [hcm]
    rw [getAllPagesAux_stop_step transport (d (n + 1)) (n + 1) k hok htr hstop]
    rw [List.range'_concat]
    simp [Nat.add_comm]
  · intro M fuel hM hfuel hcont hok
    obtain ⟨m, rfl⟩ : ∃ m, M = m + 1 := ⟨M - 1, by omega⟩
    obtain ⟨k, rfl⟩ : ∃ k, fuel = m + (k + 1) := ⟨fuel - m - 1, by omega⟩
    unfold getAllPages
    have hc : ∀ i, 1 ≤ i → i < 1 + m → contAt transport d i := by
      intro i h1 h2
      exact hcont i h1 (by omega)
    rw [getAllPagesAux_cont_run transport d m 1 (k + 1) hc]
    have hcm : (1 : Nat) + m = m + 1 := Nat.add_comm 1 m
    rw [hcm]
    rw [getAllPagesAux_absent_step transport (m + 1) k hok]
    rw [List.range'_concat]
    simp [Nat.add_comm]

/-- Witness for C6: a two-page run ending in a page without a next
link, and a run whose second fetch times out. -/
theorem get_all_pages_ascending_stop_witness :
    getAllPages c6Transport 2 =
      ⟨(List.range' 1 2).map c6Pages, List.range' 1 2, none⟩ ∧
    getAllPages c6TransportAbs 2 =
      ⟨(List.range' 1 (2 - 1)).map c6Pages, List.range' 1 2, none⟩ := by
  constructor
  · exact (get_all_pages_ascending_stop c6Transport c6Pages).1 2 2 (by decide)
      (by decide)
      (by
        intro i h1 h2
        have hi : i = 1 := by omega
        subst hi
        exact ⟨rfl, rfl, rfl⟩)
      rfl rfl rfl
  · exact (get_all_pages_ascending_stop c6TransportAbs c6Pages).2 2 2 (by decide)
      (by decide)
      (by
        intro i h1 h2
        have hi : i = 1 := by omega
        subst hi
        exact ⟨rfl, rfl, rfl⟩)
      rfl

/-- Processing any dictionary row succeeds and yields a dictionary that
carries the four stamps; when the source row does not already contain
an enrichment column, that column is present in the result exactly
when the mode requires it and the source field existed. -/
theorem processRow_obj_spec (mode jgp : String) (year : Int) (tid name : Json)
    (kvs : List (String × Json)) :
    ∃ okvs, processRow mode jgp year tid name (Json.obj kvs) =
        .ok (Json.obj okvs) ∧
      objGet okvs ("year") = some (Json.num year) ∧
      objGet okvs ("jgp_code") = some (Json.str jgp) ∧
      objGet okvs ("name") = some name ∧
      objGet okvs ("table_id") = some tid ∧
      (objGet kvs ("branch_name") = none →
        (objGet okvs ("branch_name")).isSome =
          (mode == "branch" && (objGet kvs ("branch")).isSome)) ∧
      (objGet kvs ("hospitalType_name") = none →
        (objGet okvs ("hospitalType_name")).isSome =
          (mode == "hospitalType" && (objGet kvs ("hospitalType")).isSome)) := by
  refine ⟨_, rfl, ?_, ?_, ?_, ?_, ?_, ?_⟩
  · rw [objGet_objSet_ne _ _ _ _ (by decide), objGet_objSet_ne _ _ _ _ (by decide),
      objGet_objSet_ne _ _ _ _ (by decide), objGet_objSet_self]
  · rw [objGet_objSet_ne _ _ _ _ (by decide), objGet_objSet_ne _ _ _ _ (by decide),
      objGet_objSet_self]
  · rw [objGet_objSet_ne _ _ _ _ (by decide), objGet_objSet_self]
  · rw [objGet_objSet_self]
  · intro hbn
    rw [objGet_stamps _ _ _ _ _ _ (by decide) (by decide) (by decide) (by decide)]
    cases hmB : mode == "branch" with
    | true =>
      obtain rfl : mode = "branch" := eq_of_beq hmB
      cases hbr : objGet kvs ("branch") with
      | some b => simp [hbr, objGet_objSet_self]
      | none => simp [hbr, hbn]
    | false =>
      cases hmH : mode == "hospitalType" with
      | true =>
        obtain rfl : mode = "hospitalType" := eq_of_beq hmH
        cases hht : objGet kvs ("hospitalType") with
        | some hv =>
          simp [hht]
          rw [objGet_objSet_ne _ _ _ _ (by decide)]
          simp [hbn]
        | none => simp [hht, hbn]
      | false => simp [hmB, hmH, hbn]
  · intro hhn
    rw [objGet_stamps _ _ _ _ _ _ (by decide) (by decide) (by decide) (by decide)]
    cases hmH : mode == "hospitalType" with
    | true =>
      obtain rfl : mode = "hospitalType" := eq_of_beq hmH
      cases hht : objGet kvs ("hospitalType") with
      | some hv => simp [hht, objGet_objSet_self]
      | none => simp [hht, hhn]
    | false =>
      cases hmB : mode == "branch" with
      | true =>
        obtain rfl : mode = "branch" := eq_of_beq hmB
        cases hbr : objGet kvs ("branch") with
        | some b =>
          simp [hbr]
          rw [objGet_objSet_ne _ _ _ _ (by decide)]
          simp [hhn]
        | none => simp [hbr, hhn]
      | false => simp [hmB, hmH, hhn]

/-- Every row present after folding the row loop over a page's entries
was either already accumulated or is a processed source row. -/
theorem foldlM_processRow_mem (mode jgp : String) (year : Int) (tid name : Json) :
    ∀ (elems acc out : List Json),
      elems.foldlM
        (fun acc row =>
          (processRow mode jgp year tid name row).map (fun r => acc ++ [r]))
        acc = .ok out →
      ∀ r ∈ out, r ∈ acc ∨ ∃ src, processRow mode jgp year tid name src = .ok r := by
  intro elems
  induction elems with
  | nil =>
    intro acc out h r hr
    rw [List.foldlM_nil] at h
    obtain rfl := Except.ok.inj h
    exact Or.inl hr
  | cons x rest ih =>
    intro acc out h r hr
    rw [List.foldlM_cons] at h
    cases hx : processRow mode jgp year tid name x with
    | error e =>
      rw [hx] at h
      exact Except.noConfusion h
    | ok rx =>
      rw [hx] at h
      rcases ih (acc ++ [rx]) out h r hr with hmem | ⟨src, hsrc⟩
      · rcases List.mem_append.mp hmem with h1 | h2
        · exact Or.inl h1
        · refine Or.inr ⟨x, ?_⟩
          rw [List.mem_singleton.mp h2]
          exact hx
      · exact Or.inr ⟨src, hsrc⟩

/-- Every row a page contributes is the processed image of some source
row of that page, stamped with the page's display name. -/
theorem processPage_mem (mode jgp : String) (year : Int) (tid : Json)
    (acc : List Json) (page : Json) (out : List Json)
    (h : processPage mode jgp year tid acc page = .ok out) :
    ∀ r ∈ out, r ∈ acc ∨ ∃ name src, pageName page = .ok name ∧
      processRow mode jgp year tid name src = .ok r := by
  intro r hr
  unfold processPage at h
  by_cases ht : truthy page = true
  · rw [if_pos ht] at h
    cases hdata : pySubscr page ("data") with
    | error e =>
      simp only [hdata] at h
      exact Except.noConfusion h
    | ok dataVal =>
      simp only [hdata] at h
      cases hattr : pyGetMeth dataVal ("attributes") (Json.obj []) with
      | error e =>
        simp only [hattr] at h
        exact Except.noConfusion h
      | ok attributes =>
        simp only [hattr] at h
        cases hdrows : pyGetMeth attributes ("data") (Json.arr []) with
        | error e =>
          simp only [hdrows] at h
          exact Except.noConfusion h
        | ok data_rows =>
          simp only [hdrows] at h
          cases hname : pyGetMeth attributes ("name") Json.null with
          | error e =>
            simp only [hname] at h
            exact Except.noConfusion h
          | ok nm =>
            simp only [hname] at h
            cases hiter : pyIter data_rows with
            | error e =>
              simp only [hiter] at h
              exact Except.noConfusion h
            | ok elems =>
              simp only [hiter] at h
              rcases foldlM_processRow_mem mode jgp year tid nm elems acc out h
                r hr with hmem | ⟨src, hsrc⟩
              · exact Or.inl hmem
              · refine Or.inr ⟨nm, src, ?_, hsrc⟩
                simp only [pageName, hdata, hattr]
                exact hname
  · rw [if_neg ht] at h
    obtain rfl := Except.ok.inj h
    exact Or.inl hr

/-- Every row accumulated by folding the page loop over a list of pages
comes from one of those pages. -/
theorem download_pages_mem (mode jgp : String) (year : Int) (tid : Json) :
    ∀ (pages : List Json) (acc rows : List Json),
      pages.foldlM (processPage mode jgp year tid) acc = .ok rows →
      ∀ r ∈ rows, r ∈ acc ∨ ∃ page ∈ pages, ∃ name src,
        pageName page = .ok name ∧
        processRow mode jgp year tid name src = .ok r := by
  intro pages
  induction pages with
  | nil =>
    intro acc rows h r hr
    rw [List.foldlM_nil] at h
    obtain rfl := Except.ok.inj h
    exact Or.inl hr
  | cons p ps ih =>
    intro acc rows h r hr
    rw [List.foldlM_cons] at h
    cases hp : processPage mode jgp year tid acc p with
    | error e =>
      rw [hp] at h
      exact Except.noConfusion h
    | ok mid =>
      rw [hp] at h
      rcases ih mid rows h r hr with hmem | ⟨page, hpg, nm, src, hn, hs⟩
      · rcases processPage_mem mode jgp year tid acc p mid hp r hmem with
          h1 | ⟨nm, src, hn, hs⟩
        · exact Or.inl h1
        · exact Or.inr ⟨p, List.mem_cons_self p ps, nm, src, hn, hs⟩
      · exact Or.inr ⟨page, List.mem_cons_of_mem p hpg, nm, src, hn, hs⟩

/-- C7 counterexample: in default mode a source row that already
carries a `branch_name` column keeps it, so the enrichment column is
present in the returned row although the mode is "default", which
requires no enrichment — refuting the claimed "only if" direction. -/
theorem stray_enrichment_kept :
    processRow ("default") ("c") 2020 (Json.num 1) Json.null
        (Json.obj [("branch_name", Json.str ("x"))]) =
      .ok (Json.obj [("branch_name", Json.str ("x")), ("year", Json.num 2020),
        ("jgp_code", Json.str ("c")), ("name", Json.null),
        ("table_id", Json.num 1)]) ∧
    (("default" : String) == "branch") = false :=
  ⟨rfl, by decide⟩

/-- C7 (amended): every row returned by `download_table` is the
processed image of a dictionary source row from one of the yielded
pages: it is stamped with `year`, `jgp_code`, the page's display
`name` and `table_id`; and provided the source row did not already
carry the enrichment column, `branch_name` is present iff the mode is
"branch" and the source row carried a `branch` field, and
`hospitalType_name` is present iff the mode is "hospitalType" and the
source row carried a `hospitalType` field. -/
theorem download_rows_stamped_enriched (transport : Nat → FetchOutcome)
    (mode jgp : String) (year : Int) (tid : Json) (fuel : Nat)
    (rows : List Json)
    (hok : download_table transport mode jgp year tid fuel = .ok rows) :
    ∀ r ∈ rows, ∃ page name src skvs okvs,
      page ∈ (getAllPages transport fuel).yielded ∧
      pageName page = .ok name ∧
      src = Json.obj skvs ∧ r = Json.obj okvs ∧
      processRow mode jgp year tid name src = .ok r ∧
      objGet okvs ("year") = some (Json.num year) ∧
      objGet okvs ("jgp_code") = some (Json.str jgp) ∧
      objGet okvs ("name") = some name ∧
      objGet okvs ("table_id") = some tid ∧
      (objGet skvs ("branch_name") = none →
        (objGet okvs ("branch_name")).isSome =
          (mode == "branch" && (objGet skvs ("branch")).isSome)) ∧
      (objGet skvs ("hospitalType_name") = none →
        (objGet okvs ("hospitalType_name")).isSome =
          (mode == "hospitalType" && (objGet skvs ("hospitalType")).isSome)) := by
  intro r hr
  simp only [download_table] at hok
  cases hfold : (getAllPages transport fuel).yielded.foldlM
      (processPage mode jgp year tid) [] with
  | error e =>
    simp only [hfold] at hok
    exact Except.noConfusion hok
  | ok rows1 =>
    simp only [hfold] at hok
    cases hfail : (getAllPages transport fuel).failed with
    | some e =>
      simp only [hfail] at hok
      exact Except.noConfusion hok
    | none =>
      simp only [hfail] at hok
      obtain rfl := Except.ok.inj hok
      rcases download_pages_mem mode jgp year tid
        (getAllPages transport fuel).yielded [] rows1 hfold r hr with
        hmem | ⟨page, hpg, nm, src, hn, hs⟩
      · exact absurd hmem (List.not_mem_nil r)
      · cases src with
        | obj skvs =>
          obtain ⟨okvs, heq2, hyear, hjgp, hname2, htid, hbr, hht⟩ :=
            processRow_obj_spec mode jgp year tid nm skvs
          have hr2 : r = Json.obj okvs := Except.ok.inj (hs.symm.trans heq2)
          exact ⟨page, nm, Json.obj skvs, skvs, okvs, hpg, hn, rfl, hr2,
            hs, hyear, hjgp, hname2, htid, hbr, hht⟩
        | null => exact Except.noConfusion hs
        | bool b => exact Except.noConfusion hs
        | num n => exact Except.noConfusion hs
        | str s => exact Except.noConfusion hs
        | arr elems => exact Except.noConfusion hs

/-- Witness for C7 (amended): the single-row default-mode download. -/
theorem download_rows_stamped_enriched_witness :
    download_table c7Transport ("default") ("c") 2020 (Json.num 5) 2 =
      .ok [c7Row] ∧
    ∃ page name src skvs okvs,
      page ∈ (getAllPages c7Transport 2).yielded ∧
      pageName page = .ok name ∧
      src = Json.obj skvs ∧ c7Row = Json.obj okvs ∧
      processRow ("default") ("c") 2020 (Json.num 5) name src = .ok c7Row ∧
      objGet okvs ("year") = some (Json.num 2020) ∧
      objGet okvs ("jgp_code") = some (Json.str ("c")) ∧
      objGet okvs ("name") = some name ∧
      objGet okvs ("table_id") = some (Json.num 5) ∧
      (objGet skvs ("branch_name") = none →
        (objGet okvs ("branch_name")).isSome =
          (("default" : String) == "branch" && (objGet skvs ("branch")).isSome)) ∧
      (objGet skvs ("hospitalType_name") = none →
        (objGet okvs ("hospitalType_name")).isSome =
          (("default" : String) == "hospitalType" &&
            (objGet skvs ("hospitalType")).isSome)) :=
  ⟨rfl, download_rows_stamped_enriched c7Transport ("default") ("c") 2020
    (Json.num 5) 2 [c7Row] rfl c7Row (List.mem_singleton.mpr rfl)⟩

/-- A fetch that succeeds but parses to a falsy page ends the run
without yielding that page. -/
theorem getAllPagesAux_falsy_step (transport : Nat → FetchOutcome) (d : Json)
    (p fuel : Nat) (hok : get_json (transport p) = .ok (some d))
    (hfalsy : truthy d = false) :
    getAllPagesAux transport p (fuel + 1) = ⟨[], [p], none⟩ := by
  simp [getAllPagesAux, hok, hfalsy]

/-- C10: when, after k-1 continuing pages, the fetch of page k succeeds
but the parsed page is falsy, `get_all_pages` terminates immediately
without yielding that page — it requests exactly pages 1..k and yields
only the first k-1, even when the falsy value carried a `links.next`;
any transport that instead fails the fetch of page k (after the same
prefix) produces the identical run, so at the paginator's interface a
successfully fetched empty page is indistinguishable from a failed
fetch and no later page is requested. -/
theorem falsy_page_stops_pagination (transport transport2 : Nat → FetchOutcome)
    (d : Nat → Json) (dk : Json) (k fuel : Nat) (hk : 1 ≤ k) (hfuel : k ≤ fuel)
    (hcont : ∀ i, 1 ≤ i → i < k → contAt transport d i)
    (hcont2 : ∀ i, 1 ≤ i → i < k → contAt transport2 d i)
    (hok : get_json (transport k) = .ok (some dk))
    (hfalsy : truthy dk = false)
    (habs : get_json (transport2 k) = .ok none) :
    getAllPages transport fuel =
      ⟨(List.range' 1 (k - 1)).map d, List.range' 1 k, none⟩ ∧
    getAllPages transport2 fuel =
      ⟨(List.range' 1 (k - 1)).map d, List.range' 1 k, none⟩ := by
  obtain ⟨m, rfl⟩ : ∃ m, k = m + 1 := ⟨k - 1, by omega⟩
  obtain ⟨f, rfl⟩ : ∃ f, fuel = m + (f + 1) := ⟨fuel - m - 1, by omega⟩
  constructor
  · unfold getAllPages
    have hc : ∀ i, 1 ≤ i → i < 1 + m → contAt transport d i := by
      intro i h1 h2
      exact hcont i h1 (by omega)
    rw [getAllPagesAux_cont_run transport d m 1 (f + 1) hc]
    have hcm : (1 : Nat) + m = m + 1 := Nat.add_comm 1 m
    rw [hcm]
    rw [getAllPagesAux_falsy_step transport dk (m + 1) f hok hfalsy]
    rw [List.range'_concat]
    simp [Nat.add_comm]
  · unfold getAllPages
    have hc : ∀ i, 1 ≤ i → i < 1 + m → contAt transport2 d i := by
      intro i h1 h2
      exact hcont2 i h1 (by omega)
    rw [getAllPagesAux_cont_run transport2 d m 1 (f + 1) hc]
    have hcm : (1 : Nat) + m = m + 1 := Nat.add_comm 1 m
    rw [hcm]
    rw [getAllPagesAux_absent_step transport2 (m + 1) f habs]
    rw [List.range'_concat]
    simp [Nat.add_comm]

/-- Witness for C10: after one continuing page, a fetched empty
dictionary at page 2 ends the run exactly like a timeout at page 2. -/
theorem falsy_page_stops_pagination_witness :
    getAllPages c10Transport 2 =
      ⟨(List.range' 1 (2 - 1)).map c6Pages, List.range' 1 2, none⟩ ∧
    getAllPages c10TransportAbs 2 =
      ⟨(List.range' 1 (2 - 1)).map c6Pages, List.range' 1 2, none⟩ :=
  falsy_page_stops_pagination c10Transport c10TransportAbs c6Pages (Json.obj [])
    2 2 (by decide) (by decide)
    (by
      intro i h1 h2
      have hi : i = 1 := by omega
      subst hi
      exact ⟨rfl, rfl, rfl⟩)
    (by
      intro i h1 h2
      have hi : i = 1 := by omega
      subst hi
      exact ⟨rfl, rfl, rfl⟩)
    rfl rfl rfl
